import Mathlib

/-!
Verification of the tokenized-vault NEP implementation (ERC4626Vault).

The model is a shallow embedding of src/src/lib.rs, src/src/mul_div.rs and
src/src/internal.rs. Machine integers are Nat with explicit 128-bit bounds;
a Rust panic (checked arithmetic failure, failed assert, unregistered
account) is modelled as Option.none, matching the host's call atomicity:
a panicking call leaves no state change behind.
-/

namespace TokenizedVault

/-- Rounding mode, from src/src/mul_div.rs. -/
inductive Rounding where
  | down
  | up

/-- The largest value representable in a Rust u128. -/
def u128Max : Nat := 2 ^ 128 - 1

/-- u128::checked_mul: the product if it fits in 128 bits, none on overflow. -/
def checked_mul (x y : Nat) : Option Nat :=
  if x * y ≤ u128Max then some (x * y) else none

/-- mul_div from src/src/mul_div.rs: checked multiply then divide with the
requested rounding. A panic (overflow of x*y, or division by zero) is none. -/
def mul_div (x y denominator : Nat) (rounding : Rounding) : Option Nat :=
  match checked_mul x y with
  | none => none
  | some numerator =>
    if denominator = 0 then none
    else
      let quotient := numerator / denominator
      let remainder := numerator % denominator
      match rounding with
      | Rounding.down => some quotient
      | Rounding.up => some (if remainder > 0 then quotient + 1 else quotient)

/-- AssetType from src/src/asset_type.rs. -/
inductive AssetType where
  | FungibleToken (contract_id : String)
  | MultiToken (contract_id : String) (token_id : String)

/-- The NEP-141 share ledger state kept by near-contract-standards
FungibleToken: per-account balances (none marks an unregistered account)
and the total share supply. -/
structure FungibleToken where
  balances : String → Option Nat
  total_supply : Nat

/-- FungibleToken::internal_deposit: panics (none) if the account is not
registered or the balance or the total supply would overflow 128 bits. -/
def internal_deposit (t : FungibleToken) (account : String) (amount : Nat) :
    Option FungibleToken :=
  match t.balances account with
  | none => none
  | some bal =>
    if bal + amount ≤ u128Max then
      if t.total_supply + amount ≤ u128Max then
        some { balances := fun a => if a = account then some (bal + amount) else t.balances a
               total_supply := t.total_supply + amount }
      else none
    else none

/-- FungibleToken::internal_withdraw: panics (none) if the account is not
registered, its balance is below `amount`, or the total supply would
underflow. -/
def internal_withdraw (t : FungibleToken) (account : String) (amount : Nat) :
    Option FungibleToken :=
  match t.balances account with
  | none => none
  | some bal =>
    if amount ≤ bal then
      if amount ≤ t.total_supply then
        some { balances := fun a => if a = account then some (bal - amount) else t.balances a
               total_supply := t.total_supply - amount }
      else none
    else none

/-- FungibleToken::ft_balance_of: 0 for an unregistered account. -/
def ft_balance_of (t : FungibleToken) (account : String) : Nat :=
  (t.balances account).getD 0

/-- ERC4626Vault state from src/src/lib.rs (metadata and owner are omitted:
no claim reads them). -/
structure ERC4626Vault where
  token : FungibleToken
  asset : AssetType
  total_assets : Nat

/-- convert_to_shares_internal from src/src/lib.rs:100:
mul_div(assets, total_supply, total_assets + 1, rounding). The asset-side
`+ 1` is checked u128 addition. -/
def convert_to_shares_internal (v : ERC4626Vault) (assets : Nat)
    (rounding : Rounding) : Option Nat :=
  if v.total_assets + 1 ≤ u128Max then
    mul_div assets v.token.total_supply (v.total_assets + 1) rounding
  else none

/-- convert_to_assets_internal from src/src/lib.rs:109: 0 when no shares
exist, otherwise mul_div(shares, total_assets + 1, total_supply, rounding). -/
def convert_to_assets_internal (v : ERC4626Vault) (shares : Nat)
    (rounding : Rounding) : Option Nat :=
  if v.token.total_supply = 0 then some 0
  else if v.total_assets + 1 ≤ u128Max then
    mul_div shares (v.total_assets + 1) v.token.total_supply rounding
  else none

/-- convert_to_shares view (Rounding::Down), src/src/lib.rs:210. -/
def convert_to_shares (v : ERC4626Vault) (assets : Nat) : Option Nat :=
  convert_to_shares_internal v assets Rounding.down

/-- convert_to_assets view (Rounding::Down), src/src/lib.rs:214. -/
def convert_to_assets (v : ERC4626Vault) (shares : Nat) : Option Nat :=
  convert_to_assets_internal v shares Rounding.down

/-- max_withdraw from src/src/lib.rs:234: the owner's share balance fed to
convert_to_shares_internal with Rounding::Down. -/
def max_withdraw (v : ERC4626Vault) (owner : String) : Option Nat :=
  convert_to_shares_internal v (ft_balance_of v.token owner) Rounding.down

/-- max_redeem from src/src/lib.rs:226. -/
def max_redeem (v : ERC4626Vault) (owner : String) : Nat :=
  ft_balance_of v.token owner

/-- preview_withdraw from src/src/lib.rs:238 (Rounding::Up). -/
def preview_withdraw (v : ERC4626Vault) (assets : Nat) : Option Nat :=
  convert_to_shares_internal v assets Rounding.up

/-- ft_on_transfer from src/src/lib.rs:248. `predecessor` models
env::predecessor_account_id(). Returns the updated vault and the unused
amount reported back to the asset ledger for refund; none models a panic
(after which the ledger refunds the whole amount). -/
def ft_on_transfer (v : ERC4626Vault) (predecessor sender_id : String)
    (amount : Nat) (msg : String) : Option (ERC4626Vault × Nat) :=
  match v.asset with
  | AssetType.FungibleToken contract_id =>
    if predecessor = contract_id then
      if msg = "deposit" then
        match convert_to_shares v amount with
        | none => none
        | some shares =>
          match internal_deposit v.token sender_id shares with
          | none => none
          | some token1 =>
            if v.total_assets + amount ≤ u128Max then
              some ({ v with token := token1
                             total_assets := v.total_assets + amount }, 0)
            else none
      else
        if v.total_assets + amount ≤ u128Max then
          some ({ v with total_assets := v.total_assets + amount }, 0)
        else none
    else none
  | AssetType.MultiToken _ _ => some (v, amount)

/-- handle_mt_deposit from src/src/lib.rs:126: single-item MT transfers to
an MT vault, msg "deposit" mints, anything else is tracked as a donation;
the returned list is the per-item unused amount. -/
def handle_mt_deposit (v : ERC4626Vault) (predecessor sender_id : String)
    (token_ids : List String) (amounts : List Nat) (msg : String) :
    Option (ERC4626Vault × List Nat) :=
  match v.asset with
  | AssetType.MultiToken contract_id token_id =>
    if predecessor = contract_id then
      match token_ids, amounts with
      | [tid], [amount] =>
        if tid = token_id then
          if msg = "deposit" then
            match convert_to_shares_internal v amount Rounding.down with
            | none => none
            | some shares =>
              match internal_deposit v.token sender_id shares with
              | none => none
              | some token1 =>
                if v.total_assets + amount ≤ u128Max then
                  some ({ v with token := token1
                                 total_assets := v.total_assets + amount }, [0])
                else none
          else
            if v.total_assets + amount ≤ u128Max then
              some ({ v with total_assets := v.total_assets + amount }, [0])
            else none
        else none
      | _, _ => none
    else none
  | AssetType.FungibleToken _ => some (v, amounts)

/-- redeem from src/src/lib.rs:177: values the shares at Rounding::Down,
burns them, decrements total_assets and issues the transfer. Returns the
updated vault and the asset amount sent to the receiver (the receiver id
does not affect vault state and is omitted). -/
def redeem (v : ERC4626Vault) (owner : String) (shares : Nat) :
    Option (ERC4626Vault × Nat) :=
  match convert_to_assets_internal v shares Rounding.down with
  | none => none
  | some assets =>
    match internal_withdraw v.token owner shares with
    | none => none
    | some token1 =>
      if assets ≤ v.total_assets then
        some ({ v with token := token1
                       total_assets := v.total_assets - assets }, assets)
      else none

/-- withdraw from src/src/lib.rs:193: computes the share cost at
Rounding::Up, burns it, decrements total_assets by `assets` and issues the
transfer. Returns the updated vault and the shares burned. -/
def withdraw (v : ERC4626Vault) (owner : String) (assets : Nat) :
    Option (ERC4626Vault × Nat) :=
  match convert_to_shares_internal v assets Rounding.up with
  | none => none
  | some shares =>
    match internal_withdraw v.token owner shares with
    | none => none
    | some token1 =>
      if assets ≤ v.total_assets then
        some ({ v with token := token1
                       total_assets := v.total_assets - assets }, shares)
      else none

/-- internal_execute_withdrawal from src/src/internal.rs:69: asserts
sufficient owner shares, a nonzero asset amount and sufficient pool assets,
then burns the shares and decrements total_assets (checks-effects-
interactions) before the transfer-with-callback is issued. The receiver id
only shapes the outbound transfer payload and is omitted. -/
def internal_execute_withdrawal (v : ERC4626Vault) (owner : String)
    (shares_to_burn assets_to_transfer : Nat) : Option ERC4626Vault :=
  if shares_to_burn ≤ ft_balance_of v.token owner then
    if 0 < assets_to_transfer then
      if assets_to_transfer ≤ v.total_assets then
        match internal_withdraw v.token owner shares_to_burn with
        | none => none
        | some token1 =>
          some { v with token := token1
                        total_assets := v.total_assets - assets_to_transfer }
      else none
    else none
  else none

/-- u128 well-formedness of a vault state: every stored quantity fits in
128 bits, as guaranteed on chain where all fields are u128. -/
def WF (v : ERC4626Vault) : Prop :=
  (∀ a b, v.token.balances a = some b → b ≤ u128Max) ∧
  v.token.total_supply ≤ u128Max ∧ v.total_assets ≤ u128Max

/-- Account id literals used by the concrete test states. -/
def alice : String := "alice"

/-- Contract id of the underlying asset in the concrete test states. -/
def usdt : String := "usdt"

/-- The deposit message recognised by ft_on_transfer. -/
def depositMsg : String := "deposit"

/-- A ledger with a single registered account `acct`. -/
def singleLedger (acct : String) (bal supply : Nat) : FungibleToken :=
  { balances := fun a => if a = acct then some bal else none
    total_supply := supply }

/-- FT-asset vault whose ledger registers only `alice`. -/
def mkVault (bal supply assets : Nat) : ERC4626Vault :=
  { token := singleLedger alice bal supply
    asset := AssetType.FungibleToken usdt
    total_assets := assets }

/-- Claim C4: the conversion engine computes sharesFor(assets, r) =
mulDiv(assets, totalSupply, totalAssets + 1, r), and assetsFor(shares, r) =
0 when totalSupply = 0 (regardless of rounding) and
mulDiv(shares, totalAssets + 1, totalSupply, r) otherwise; at
totalAssets = 1000, totalSupply = 1000, convertToShares 500 = 499 and
convertToAssets 500 = 500. -/
theorem conversion_engine_matches_spec (v : ERC4626Vault) (x : Nat)
    (r : Rounding) (h : v.total_assets < u128Max) :
    convert_to_shares_internal v x r
        = mul_div x v.token.total_supply (v.total_assets + 1) r
    ∧ (v.token.total_supply = 0 → convert_to_assets_internal v x r = some 0)
    ∧ (v.token.total_supply ≠ 0 →
        convert_to_assets_internal v x r
          = mul_div x (v.total_assets + 1) v.token.total_supply r)
    ∧ convert_to_shares (mkVault 1000 1000 1000) 500 = some 499
    ∧ convert_to_assets (mkVault 1000 1000 1000) 500 = some 500 := by
  have h1 : v.total_assets + 1 ≤ u128Max := h
  refine ⟨?_, ?_, ?_, by decide, by decide⟩
  · simp [convert_to_shares_internal, h1]
  · intro hs
    simp [convert_to_assets_internal, hs]
  · intro hs
    simp [convert_to_assets_internal, hs, h1]

/-- Witness for C4 at a concrete state and input. -/
theorem conversion_engine_matches_spec_witness :
    convert_to_shares_internal (mkVault 1000 1000 1000) 7 Rounding.down
        = mul_div 7 1000 1001 Rounding.down
    ∧ ((1000 : Nat) = 0 →
        convert_to_assets_internal (mkVault 1000 1000 1000) 7 Rounding.down
          = some 0)
    ∧ ((1000 : Nat) ≠ 0 →
        convert_to_assets_internal (mkVault 1000 1000 1000) 7 Rounding.down
          = mul_div 7 1001 1000 Rounding.down)
    ∧ convert_to_shares (mkVault 1000 1000 1000) 500 = some 499
    ∧ convert_to_assets (mkVault 1000 1000 1000) 500 = some 500 :=
  conversion_engine_matches_spec (mkVault 1000 1000 1000) 7 Rounding.down
    (by decide)

/-- Claim C7: mul_div returns the floor quotient for Rounding::Down, the
floor quotient plus 1 exactly when the remainder is nonzero for
Rounding::Up, and fails (never wraps) whenever x*y exceeds the 128-bit
range; in particular it fails at x = y = 2^100 with denominator 3. -/
theorem mul_div_correct (x y d : Nat) (hd : 0 < d) :
    (x * y ≤ u128Max →
        mul_div x y d Rounding.down = some (x * y / d)
        ∧ mul_div x y d Rounding.up
            = some (if x * y % d = 0 then x * y / d else x * y / d + 1))
    ∧ (u128Max < x * y → ∀ r, mul_div x y d r = none)
    ∧ (∀ r, mul_div (2 ^ 100) (2 ^ 100) 3 r = none) := by
  refine ⟨?_, ?_, ?_⟩
  · intro h
    constructor
    · simp [mul_div, checked_mul, h, hd.ne']
    · by_cases hr : x * y % d = 0
      · simp [mul_div, checked_mul, h, hd.ne', hr]
      · simp [mul_div, checked_mul, h, hd.ne', hr, Nat.pos_of_ne_zero hr]
  · intro h r
    simp [mul_div, checked_mul, Nat.not_le.mpr h]
  · intro r
    cases r <;> rfl

/-- Witness for C7 at concrete inputs. -/
theorem mul_div_correct_witness :
    ((6 * 7 : Nat) ≤ u128Max →
        mul_div 6 7 4 Rounding.down = some (6 * 7 / 4)
        ∧ mul_div 6 7 4 Rounding.up
            = some (if (6 * 7 : Nat) % 4 = 0 then 6 * 7 / 4 else 6 * 7 / 4 + 1))
    ∧ (u128Max < (6 * 7 : Nat) → ∀ r, mul_div 6 7 4 r = none)
    ∧ (∀ r, mul_div (2 ^ 100) (2 ^ 100) 3 r = none) :=
  mul_div_correct 6 7 4 (by decide)

/-- internal_deposit leaves every other account's balance alone and raises
the total supply by exactly the deposited amount. -/
lemma internal_deposit_supply (t : FungibleToken) (acct : String) (amt : Nat)
    (t1 : FungibleToken) (h : internal_deposit t acct amt = some t1) :
    t1.total_supply = t.total_supply + amt := by
  unfold internal_deposit at h
  cases hb : t.balances acct with
  | none => rw [hb] at h; simp at h
  | some bal =>
    rw [hb] at h
    by_cases h1 : bal + amt ≤ u128Max
    · by_cases h2 : t.total_supply + amt ≤ u128Max
      · simp [h1, h2] at h
        rw [← h]
      · simp [h1, h2] at h
    · simp [h1] at h

/-- A successful convert_to_shares call returns the floor quotient
assets * totalSupply / (totalAssets + 1). -/
lemma convert_to_shares_eq (v : ERC4626Vault) (X n : Nat)
    (h : convert_to_shares v X = some n) :
    n = X * v.token.total_supply / (v.total_assets + 1) := by
  unfold convert_to_shares convert_to_shares_internal mul_div checked_mul at h
  by_cases h1 : v.total_assets + 1 ≤ u128Max
  · by_cases h2 : X * v.token.total_supply ≤ u128Max
    · simp [h1, h2] at h
      exact h.symm
    · simp [h1, h2] at h
  · simp [h1] at h

/-- A successful redeem pays out either 0 assets or the floor value
shares * (totalAssets + 1) / totalSupply of the burned shares. -/
lemma redeem_assets_cases (v : ERC4626Vault) (owner : String) (shares : Nat)
    (v2 : ERC4626Vault) (a : Nat)
    (h : redeem v owner shares = some (v2, a)) :
    a = 0 ∨ a = shares * (v.total_assets + 1) / v.token.total_supply := by
  unfold redeem at h
  cases hc : convert_to_assets_internal v shares Rounding.down with
  | none => rw [hc] at h; simp at h
  | some assets =>
    rw [hc] at h
    have ha : a = assets := by
      cases hw : internal_withdraw v.token owner shares with
      | none => rw [hw] at h; simp at h
      | some token1 =>
        rw [hw] at h
        by_cases hle : assets ≤ v.total_assets
        · simp [hle, Prod.ext_iff] at h
          exact h.2.symm
        · simp [hle] at h
    subst ha
    unfold convert_to_assets_internal at hc
    by_cases hs : v.token.total_supply = 0
    · left
      simp [hs] at hc
      omega
    · right
      unfold mul_div checked_mul at hc
      by_cases h1 : v.total_assets + 1 ≤ u128Max
      · by_cases h2 : shares * (v.total_assets + 1) ≤ u128Max
        · simp [hs, h1, h2] at hc
          exact hc.symm
        · simp [hs, h1, h2] at hc
      · simp [hs, h1] at hc

/-- Arithmetic core of the round-trip bound: burning back the
floor(X*S/(A+1)) shares minted for X against the post-deposit pool
(A + X, S + n) yields at most X. -/
lemma div_round_trip_le (X S A n : Nat) (hn : n = X * S / (A + 1)) :
    n * (A + X + 1) / (S + n) ≤ X := by
  have h1 : n * (A + 1) ≤ X * S := by
    subst hn
    exact Nat.div_mul_le_self (X * S) (A + 1)
  have h2 : n * (A + X + 1) ≤ X * (S + n) := by
    calc n * (A + X + 1) = n * (A + 1) + n * X := by ring
      _ ≤ X * S + n * X := Nat.add_le_add_right h1 _
      _ = X * (S + n) := by ring
  rcases Nat.eq_zero_or_pos (S + n) with h0 | h0
  · simp [h0]
  · calc n * (A + X + 1) / (S + n) ≤ X * (S + n) / (S + n) :=
        Nat.div_le_div_right h2
      _ = X := Nat.mul_div_cancel X h0

/-- Claim C2 (refuted by the code): the first deposit of 1000 assets into
the empty vault mints 0 shares, not 1000 — convert_to_shares multiplies by
the zero total supply and has no empty-vault special case, so the depositor
forfeits the whole amount. -/
theorem first_deposit_mints_zero_shares :
    ∃ v1, ft_on_transfer (mkVault 0 0 0) usdt alice 1000 depositMsg
        = some (v1, 0)
      ∧ ft_balance_of v1.token alice = 0
      ∧ v1.token.total_supply = 0
      ∧ v1.total_assets = 1000 :=
  ⟨_, rfl, rfl, rfl, rfl⟩

/-- Claim C3 (refuted by the code): a dust deposit of 1 asset at
totalAssets = 1000, totalSupply = 1000 is accepted, not rejected: 0 shares
are minted, totalAssets becomes 1001 and the reported unused amount is 0,
so nothing is refunded and the vault keeps the asset. -/
theorem dust_deposit_accepted_and_kept :
    ∃ v1, ft_on_transfer (mkVault 1000 1000 1000) usdt alice 1 depositMsg
        = some (v1, 0)
      ∧ ft_balance_of v1.token alice = 1000
      ∧ v1.token.total_supply = 1000
      ∧ v1.total_assets = 1001 :=
  ⟨_, rfl, rfl, rfl, rfl⟩

/-- A deposit message carrying a minShares bound, as built by the test
helpers (src/tests/helper/vault.rs). -/
def minSharesMsg : String := "\x7b\"min_shares\": \"2000\"\x7d"

/-- Claim C5 (refuted by the code): ft_on_transfer never parses the
message, so a deposit carrying min_shares = 2000 — unreachable, since at
the empty vault the maximum mintable shares are 0 — is not rejected:
the message differs from "deposit", so the whole amount is booked as a
donation (totalAssets += 1000, no shares, unused = 0) instead of being
reported unused for refund. -/
theorem min_shares_deposit_taken_as_donation :
    convert_to_shares (mkVault 0 0 0) 1000 = some 0
    ∧ minSharesMsg ≠ depositMsg
    ∧ ∃ v1, ft_on_transfer (mkVault 0 0 0) usdt alice 1000 minSharesMsg
          = some (v1, 0)
        ∧ ft_balance_of v1.token alice = 0
        ∧ v1.token.total_supply = 0
        ∧ v1.total_assets = 1000 :=
  ⟨rfl, by decide, _, rfl, rfl, rfl, rfl⟩

/-- Claim C6 (refuted by the code): withdraw has no maxWithdraw check. At a
vault holding 10 donated assets with zero share supply and a registered
owner holding 0 shares, maxWithdraw(owner) = 0, yet withdraw(5) succeeds:
it burns ceil(5*0/11) = 0 shares and decrements totalAssets to 5. -/
theorem withdraw_beyond_max_succeeds :
    max_withdraw (mkVault 0 0 10) alice = some 0
    ∧ ∃ v1, withdraw (mkVault 0 0 10) alice 5 = some (v1, 0)
        ∧ v1.total_assets = 5
        ∧ v1.token.total_supply = 0
        ∧ ft_balance_of v1.token alice = 0 :=
  ⟨rfl, _, rfl, rfl, rfl, rfl⟩

/-- Claim C9 (refuted by the code): redeem(0) and withdraw(0) on a fresh
vault with a registered caller both succeed (burning 0 shares and issuing a
0-asset transfer) instead of failing with ZeroAmount; the zero-amount
assert exists only in internal_execute_withdrawal, which the public
redeem/withdraw entry points do not call. -/
theorem zero_withdrawal_succeeds :
    (∃ v1, redeem (mkVault 0 0 0) alice 0 = some (v1, 0)
        ∧ v1.total_assets = 0 ∧ v1.token.total_supply = 0)
    ∧ (∃ v2, withdraw (mkVault 0 0 0) alice 0 = some (v2, 0)
        ∧ v2.total_assets = 0 ∧ v2.token.total_supply = 0)
    ∧ internal_execute_withdrawal (mkVault 0 0 0) alice 0 0 = none :=
  ⟨⟨_, rfl, rfl, rfl⟩, ⟨_, rfl, rfl, rfl⟩, rfl⟩

/-- Claim C10: for a vault whose asset descriptor matches the notifying
ledger, an inbound transfer notification whose message is anything other
than exactly "deposit" is accepted as a donation: totalAssets is
incremented by the full amount, the share ledger is untouched, and 0 is
reported as the unused amount, so the sender gets neither refund nor
shares. Holds for the FT handler and for the single-item MT handler. -/
theorem non_deposit_transfer_is_donation (v : ERC4626Vault)
    (sender msg cid : String) (amount : Nat)
    (hmsg : msg ≠ "deposit") (hcap : v.total_assets + amount ≤ u128Max) :
    (v.asset = AssetType.FungibleToken cid →
      ft_on_transfer v cid sender amount msg
        = some ({ v with total_assets := v.total_assets + amount }, 0))
    ∧ (∀ tid, v.asset = AssetType.MultiToken cid tid →
      handle_mt_deposit v cid sender [tid] [amount] msg
        = some ({ v with total_assets := v.total_assets + amount }, [0])) := by
  constructor
  · intro hasset
    simp [ft_on_transfer, hasset, hmsg, hcap]
  · intro tid hasset
    simp [handle_mt_deposit, hasset, hmsg, hcap]

/-- A message used by the C10 witness. -/
def donateMsg : String := "yield"

/-- Witness for C10 at a concrete FT vault and amount. -/
theorem non_deposit_transfer_is_donation_witness :
    ((mkVault 3 5 7).asset = AssetType.FungibleToken usdt →
      ft_on_transfer (mkVault 3 5 7) usdt alice 11 donateMsg
        = some ({ mkVault 3 5 7 with
                    total_assets := (mkVault 3 5 7).total_assets + 11 }, 0))
    ∧ (∀ tid, (mkVault 3 5 7).asset = AssetType.MultiToken usdt tid →
      handle_mt_deposit (mkVault 3 5 7) usdt alice [tid] [11] donateMsg
        = some ({ mkVault 3 5 7 with
                    total_assets := (mkVault 3 5 7).total_assets + 11 }, [0])) :=
  non_deposit_transfer_is_donation (mkVault 3 5 7) alice donateMsg usdt 11
    (by decide) (by decide)

/-- Claim C8 counterexample: depositing 2 assets into the empty vault mints
0 shares (convert_to_shares multiplies by the zero supply), so redeeming
all newly minted shares returns 0 assets and the round-trip shortfall is 2,
exceeding 1 unit. -/
theorem round_trip_shortfall_exceeds_one :
    ∃ v1, ft_on_transfer (mkVault 0 0 0) usdt alice 2 depositMsg
        = some (v1, 0)
      ∧ ft_balance_of v1.token alice = 0
      ∧ (∃ v2, redeem v1 alice 0 = some (v2, 0))
      ∧ ¬ ((2 : Nat) - 0 ≤ 1) :=
  ⟨_, rfl, rfl, ⟨_, rfl⟩, by decide⟩

/-- Claim C8 amended: a deposit of X followed immediately by a redeem of
all shares minted by that deposit returns at most X assets — the vault
never pays out a round-trip profit; the 1-unit bound on the shortfall does
not hold. -/
theorem round_trip_never_profits
    (v : ERC4626Vault) (sender cid : String) (X n u a : Nat)
    (v1 v2 : ERC4626Vault)
    (hasset : v.asset = AssetType.FungibleToken cid)
    (hn : convert_to_shares v X = some n)
    (hdep : ft_on_transfer v cid sender X depositMsg = some (v1, u))
    (hred : redeem v1 sender n = some (v2, a)) :
    a ≤ X := by
  simp [ft_on_transfer, hasset, depositMsg, hn] at hdep
  cases hdi : internal_deposit v.token sender n with
  | none => rw [hdi] at hdep; simp at hdep
  | some token1 =>
    rw [hdi] at hdep
    by_cases hcap : v.total_assets + X ≤ u128Max
    · simp [hcap, Prod.ext_iff] at hdep
      obtain ⟨hv1, hu⟩ := hdep
      have hsupply : token1.total_supply = v.token.total_supply + n :=
        internal_deposit_supply v.token sender n token1 hdi
      rcases redeem_assets_cases v1 sender n v2 a hred with h0 | hform
      · omega
      · have hta : v1.total_assets = v.total_assets + X := by
          rw [← hv1]
        have hts : v1.token.total_supply = v.token.total_supply + n := by
          rw [← hv1]
          exact hsupply
        rw [hta, hts] at hform
        rw [hform]
        exact div_round_trip_le X v.token.total_supply v.total_assets n
          (convert_to_shares_eq v X n hn)
    · simp [hcap] at hdep

/-- Witness for the amended C8: deposit 1000 at totalAssets = 1000,
totalSupply = 1000 mints 999 shares; redeeming them returns 999 ≤ 1000. -/
theorem round_trip_never_profits_witness :
    convert_to_shares (mkVault 1000 1000 1000) 1000 = some 999
    ∧ (999 : Nat) ≤ 1000 :=
  ⟨rfl, round_trip_never_profits (mkVault 1000 1000 1000) alice usdt
    1000 999 0 999 _ _ rfl rfl rfl rfl⟩

/-- Concrete pre-withdrawal state: alice holds 1000 shares, total supply
1000, total assets 1000. -/
def preVault : ERC4626Vault := mkVault 1000 1000 1000

/-- Claim C1 (refuted by the code): redeem in src/src/lib.rs:177 burns the
shares and decrements totalAssets, then returns the bare transfer promise
built by internal_transfer_assets (src/src/lib.rs:71) with no resolution
callback chained — no resolve_withdraw exists in the tree, and the
callback-scheduling variant in src/src/internal.rs is not a declared
module. So when the external asset transfer fails, nothing re-credits the
burned shares or re-increments totalAssets and no 0 result is produced:
the committed state below — owner balance, totalSupply and totalAssets all
reduced, each differing from its pre-call value — is the program's final
state for a failed withdrawal. -/
theorem failed_transfer_never_compensated :
    ∃ v1, redeem preVault alice 500 = some (v1, 500)
      ∧ ft_balance_of v1.token alice = 500
      ∧ v1.token.total_supply = 500
      ∧ v1.total_assets = 500
      ∧ ft_balance_of v1.token alice ≠ ft_balance_of preVault.token alice
      ∧ v1.token.total_supply ≠ preVault.token.total_supply
      ∧ v1.total_assets ≠ preVault.total_assets :=
  ⟨_, rfl, rfl, rfl, rfl, by decide, by decide, by decide⟩

end TokenizedVault
